import Mathlib

/-!
Verification of the attribute-filtering behaviour of the saleor repository
fragment: the `filter_attributes_by_product_types` queryset filter exercised
by `saleor/graphql/attribute/tests/queries/test_attribute_filter.py`, the
field filters of the attribute GraphQL filter set, and the schema migration
`saleor/site/migrations/0029_auto_20210118_1150.py`.

The filter function itself (`saleor/graphql/attribute/filters.py`) is not
part of the provided sources; it is modelled from the specification, with
the behaviour of the collection branch pinned down by the repository's own
tests where they speak (see the doc comments of the individual
definitions).
-/

namespace Saleor

/-- Per-channel listing state of a product (`ProductChannelListing`):
the channel slug and the `is_published` / `visible_in_listings` flags. -/
structure ChannelListing where
  channel : String
  isPublished : Bool
  visibleInListings : Bool
deriving DecidableEq

/-- A product row: its product type (foreign key), optional category,
collection memberships, and per-channel listings. -/
structure Product where
  id : Int
  productTypeId : Int
  categoryId : Option Int
  collectionIds : List Int
  channelListings : List ChannelListing
deriving DecidableEq

/-- The two values of the attribute `type` field
(`AttributeType.PAGE_TYPE` / `AttributeType.PRODUCT_TYPE`). -/
inductive AttributeType where
  | pageType
  | productType
deriving DecidableEq

/-- An attribute row: identity, display flags, its `type`, and the product
types it is assigned to (the union of its `attributeproduct` and
`attributevariant` assignments, which is what the product-type membership
filter consults). -/
structure Attribute where
  id : Int
  slug : String
  attrType : AttributeType
  filterableInDashboard : Bool
  availableInGrid : Bool
  productTypeIds : List Int
deriving DecidableEq

/-- The requesting actor: anonymous, customer, staff or app, the latter two
with or without the `manage_products` permission. -/
inductive Actor where
  | anonymous
  | customer
  | staff (manageProducts : Bool)
  | app (manageProducts : Bool)
deriving DecidableEq

/-- Whether the actor holds the bypass (`manage_products`) permission. -/
def Actor.hasBypass : Actor → Bool
  | .anonymous => false
  | .customer => false
  | .staff p => p
  | .app p => p

/-- Whether the actor is a staff member or an app, with or without the
permission. The repository's tests pin this, not the permission, as the
gate of the visibility exclusions: staff and app actors without
`manage_products` also receive the attributes of unpublished or
invisible products (test_attribute_filter.py lines 184-224, 273-313,
405-445, 494-534, 673-716 and 768-811). -/
def Actor.isStaffOrApp : Actor → Bool
  | .anonymous => false
  | .customer => false
  | .staff _ => true
  | .app _ => true

/-- The relevant database state: existing category and collection primary
keys and the product rows. -/
structure DB where
  categories : List Int
  collections : List Int
  products : List Product
deriving DecidableEq

/-- Split a character list at its first `':'`; `none` when there is no
colon. -/
def splitAtColon : List Char → Option (List Char × List Char)
  | [] => none
  | c :: cs =>
    if c = ':' then some ([], cs)
    else
      match splitAtColon cs with
      | some (l, r) => some (c :: l, r)
      | none => none

/-- The numeric value of a decimal digit character. -/
def digitVal (c : Char) : Option Nat :=
  if c.isDigit then some (c.toNat - 48) else none

/-- Parse a non-empty run of decimal digits. -/
def parseNatChars (cs : List Char) : Option Nat :=
  match cs with
  | [] => none
  | _ =>
    cs.foldl
      (fun acc c =>
        match acc, digitVal c with
        | some n, some d => some (n * 10 + d)
        | _, _ => none)
      (some 0)

/-- Parse a decimal integer with an optional leading minus sign. -/
def parseIntChars : List Char → Option Int
  | '-' :: cs => (parseNatChars cs).map (fun n => -(n : Int))
  | cs => (parseNatChars cs).map (fun n => (n : Int))

/-- Modelled from the spec: decoding a global ID — an identifier
"combining type name and primary key" (spec.md glossary), written
`<type>:<pk>` — to its (type name, primary key) pair; malformed input
decodes to `none`. -/
def fromGlobalId (s : String) : Option (String × Int) :=
  match splitAtColon s.toList with
  | some (tyChars, pkChars) =>
    (parseIntChars pkChars).map (fun pk => (String.mk tyChars, pk))
  | none => none

/-- Modelled from the spec: decode a global ID and require the expected
type name; a mismatch or malformed input yields `none`. -/
def decodeId (expectedType : String) (s : String) : Option Int :=
  match fromGlobalId s with
  | some (typeName, pk) => if typeName = expectedType then some pk else none
  | none => none

/-- Python falsiness of the filter value: `None` or the empty string. -/
def isEmptyValue : Option String → Bool
  | none => true
  | some s => decide (s = "")

/-- Modelled from the spec (§4.1): the visibility test applied to a
container's products. The product must have a listing for the given
channel; unless the actor is exempt, the listing must also be published
and — when `requireVisibleInListings` is set, which the code does only
for the category branch — visible in listings. Two points where the
repository's tests override the spec's words are followed: the exemption
covers every staff or app actor, not only holders of the
`manage_products` permission (`Actor.isStaffOrApp`; tests at
test_attribute_filter.py lines 184-224, 273-313, 405-445, 494-534,
673-716, 768-811 assert no exclusion for staff/app without the
permission), and the collection branch does not consult
`visible_in_listings`
(test_filter_attributes_in_collection_not_visible_in_listings_by_customer,
lines 537-576). -/
def visibleForActor (actor : Actor) (channelSlug : String)
    (requireVisibleInListings : Bool) (p : Product) : Bool :=
  if actor.isStaffOrApp then
    p.channelListings.any (fun l => decide (l.channel = channelSlug))
  else
    p.channelListings.any (fun l =>
      decide (l.channel = channelSlug) && l.isPublished &&
        (!requireVisibleInListings || l.visibleInListings))

/-- Products of a category container. -/
def inCategoryProducts (db : DB) (pk : Int) : List Product :=
  db.products.filter (fun p => decide (p.categoryId = some pk))

/-- Products of a collection container. -/
def inCollectionProducts (db : DB) (pk : Int) : List Product :=
  db.products.filter (fun p => decide (pk ∈ p.collectionIds))

/-- Attributes of the queryset whose product-type membership intersects
the given set of product types. -/
def attributesForProductTypes (qs : List Attribute) (ptypes : List Int) :
    List Attribute :=
  qs.filter (fun a => decide (∃ t ∈ a.productTypeIds, t ∈ ptypes))

/-- Modelled from the spec: `filter_attributes_by_product_types` of
`saleor/graphql/attribute/filters.py`, which is absent from the provided
sources. Behaviour per spec.md §4.1, §6 and §7: an empty/null value
returns the queryset unchanged; an unsupported field name raises
`NotImplementedError` ("Filtering by <field> is unsupported", modelled as
`Except.error`); a malformed or non-existent container ID yields an empty
result; otherwise the container's products are filtered by channel and —
unless the actor is a staff or app actor — by listing visibility
(`visibleForActor`; the exemption for staff/app without the permission
and the category branch alone requiring `visible_in_listings` are both
pinned by the repository's tests, see `visibleForActor`), and the
attributes whose product-type membership intersects the remaining
products' product types are returned. -/
def filter_attributes_by_product_types (db : DB) (qs : List Attribute)
    (fieldName : String) (value : Option String) (actor : Actor)
    (channelSlug : String) : Except String (List Attribute) :=
  if isEmptyValue value then
    .ok qs
  else if fieldName = "in_category" then
    match decodeId "Category" (value.getD "") with
    | none => .ok []
    | some pk =>
      if pk ∈ db.categories then
        let prods :=
          (inCategoryProducts db pk).filter (visibleForActor actor channelSlug true)
        .ok (attributesForProductTypes qs (prods.map (·.productTypeId)))
      else
        .ok []
  else if fieldName = "in_collection" then
    match decodeId "Collection" (value.getD "") with
    | none => .ok []
    | some pk =>
      let prods :=
        (inCollectionProducts db pk).filter (visibleForActor actor channelSlug false)
      .ok (attributesForProductTypes qs (prods.map (·.productTypeId)))
  else
    .error ("Filtering by " ++ fieldName ++ " is unsupported")

/-- The decoded category ID of the value is missing from the database (or
the value is malformed). -/
def categoryMissing (db : DB) (v : String) : Bool :=
  match decodeId "Category" v with
  | none => true
  | some pk => decide (pk ∉ db.categories)

/-- The decoded collection ID of the value belongs to no product (or the
value is malformed). -/
def collectionUnused (db : DB) (v : String) : Bool :=
  match decodeId "Collection" v with
  | none => true
  | some pk => decide (∀ p ∈ db.products, pk ∉ p.collectionIds)

/-- One operation of the Django migration file, as the migration uses it:
`AlterField(model_name, name, CharField(choices, default, max_length))`. -/
structure CharFieldSpec where
  choices : List (String × String)
  default : String
  maxLength : Nat
deriving DecidableEq

/-- A migration operation. -/
inductive MigrationOperation where
  | alterField (modelName fieldName : String) (field : CharFieldSpec)
deriving DecidableEq

/-- A Django migration: dependencies and operations. -/
structure Migration where
  dependencies : List (String × String)
  operations : List MigrationOperation
deriving DecidableEq

/-- The content of `saleor/site/migrations/0029_auto_20210118_1150.py`. -/
def migration_0029 : Migration :=
  { dependencies := [("site", "0028_delete_authorizationkey")]
    operations := [
      .alterField "sitesettings" "default_weight_unit"
        { choices := [("g", "g"), ("tonne", "tonne"), ("oz", "oz"), ("lb", "lb"),
            ("stone", "stone"), ("short_ton", "short_ton"),
            ("long_ton", "long_ton"), ("kg", "kg")]
          default := "kg"
          maxLength := 30 }] }

/-- Modelled from the spec: the attribute `type` filter of the GraphQL
filter set (its module is absent from the provided sources); an exact-match
filter on the attribute's `type` field, whose values per the tests are
`PAGE_TYPE` and `PRODUCT_TYPE`. -/
def filter_attribute_type (qs : List Attribute) (value : AttributeType) :
    List Attribute :=
  qs.filter (fun a => decide (a.attrType = value))

/-- Modelled from the spec: the `filterable_in_dashboard` field filter of
the attribute filter set (its module is absent from the provided sources);
an exact-match filter on the flag. -/
def filter_filterable_in_dashboard (qs : List Attribute) (value : Bool) :
    List Attribute :=
  qs.filter (fun a => a.filterableInDashboard == value)

/-- Modelled from the spec: the `available_in_grid` field filter of the
attribute filter set (its module is absent from the provided sources); an
exact-match filter on the flag. -/
def filter_available_in_grid (qs : List Attribute) (value : Bool) :
    List Attribute :=
  qs.filter (fun a => a.availableInGrid == value)

/-- Modelled from the spec, in the spec's own words (§4.1, last rule), as
the reference definition of the container filters: resolve the
container's products, keep those with a listing for the given channel,
and — unless the actor has the bypass permission — drop products whose
channel listing is unpublished or not visible in listings; collect the
product types of the remaining products; the result is the attributes of
the input queryset whose product-type membership intersects that set. -/
def referenceFilterResult (db : DB) (qs : List Attribute) (fieldName : String)
    (actor : Actor) (channelSlug : String) (pk : Int) : List Attribute :=
  let container := db.products.filter (fun p =>
    if fieldName = "in_category" then decide (p.categoryId = some pk)
    else decide (pk ∈ p.collectionIds))
  let inChannel := container.filter (fun p =>
    p.channelListings.any (fun l => decide (l.channel = channelSlug)))
  let visible :=
    if actor.hasBypass then inChannel
    else
      inChannel.filter (fun p =>
        p.channelListings.any (fun l =>
          decide (l.channel = channelSlug) && l.isPublished &&
            l.visibleInListings))
  qs.filter (fun a =>
    decide (∃ t ∈ a.productTypeIds, ∃ p ∈ visible, p.productTypeId = t))

/-- The reference definition amended no more than the counterexamples
force: identical to `referenceFilterResult` except that the
`visible_in_listings` exclusion applies only to the category branch, and
the exclusions are skipped for every staff or app actor, not only for
holders of the `manage_products` permission. -/
def referenceFilterAmended (db : DB) (qs : List Attribute) (fieldName : String)
    (actor : Actor) (channelSlug : String) (pk : Int) : List Attribute :=
  let container := db.products.filter (fun p =>
    if fieldName = "in_category" then decide (p.categoryId = some pk)
    else decide (pk ∈ p.collectionIds))
  let inChannel := container.filter (fun p =>
    p.channelListings.any (fun l => decide (l.channel = channelSlug)))
  let visible :=
    if actor.isStaffOrApp then inChannel
    else
      inChannel.filter (fun p =>
        p.channelListings.any (fun l =>
          decide (l.channel = channelSlug) && l.isPublished &&
            (!(decide (fieldName = "in_category")) || l.visibleInListings)))
  qs.filter (fun a =>
    decide (∃ t ∈ a.productTypeIds, ∃ p ∈ visible, p.productTypeId = t))

/-- A one-product demonstration database, following the tests' setup: the
product has product type 7, belongs to category 1 and collection 1, and
has a single listing for channel `default-channel` with the given
`is_published` / `visible_in_listings` flags. -/
def demoProduct (pub vis : Bool) : Product :=
  { id := 1, productTypeId := 7, categoryId := some 1, collectionIds := [1],
    channelListings := [⟨"default-channel", pub, vis⟩] }

/-- Demonstration database holding `demoProduct pub vis` alone. -/
def demoDB (pub vis : Bool) : DB :=
  { categories := [1], collections := [1], products := [demoProduct pub vis] }

/-- The weight attribute of the tests: assigned exactly to the demo
product's product type. -/
def weightAttr : Attribute :=
  { id := 1, slug := "weight", attrType := .productType,
    filterableInDashboard := true, availableInGrid := true,
    productTypeIds := [7] }

deriving instance DecidableEq for Except

end Saleor

namespace Saleor

theorem mem_attributesForProductTypes (qs : List Attribute)
    (ptypes : List Int) (a : Attribute) :
    a ∈ attributesForProductTypes qs ptypes
      ↔ a ∈ qs ∧ ∃ t ∈ a.productTypeIds, t ∈ ptypes := by
  simp [attributesForProductTypes, List.mem_filter]

theorem attributesForProductTypes_nil (qs : List Attribute) :
    attributesForProductTypes qs [] = [] := by
  simp [attributesForProductTypes]

theorem visibleForActor_not_staff_or_app (actor : Actor) (channelSlug : String)
    (req : Bool) (p : Product) (hb : actor.isStaffOrApp = false) :
    visibleForActor actor channelSlug req p
      = p.channelListings.any (fun l =>
          decide (l.channel = channelSlug) && l.isPublished &&
            (!req || l.visibleInListings)) := by
  simp [visibleForActor, hb]

theorem visibleForActor_staff_or_app (actor : Actor) (channelSlug : String)
    (req : Bool) (p : Product) (hb : actor.isStaffOrApp = true) :
    visibleForActor actor channelSlug req p
      = p.channelListings.any (fun l => decide (l.channel = channelSlug)) := by
  simp [visibleForActor, hb]

theorem Actor.isStaffOrApp_of_hasBypass (actor : Actor)
    (h : actor.hasBypass = true) : actor.isStaffOrApp = true := by
  cases actor <;> simp_all [Actor.hasBypass, Actor.isStaffOrApp]

theorem filter_category_result (db : DB) (qs : List Attribute) (actor : Actor)
    (channelSlug v : String) (pk : Int) (hv : v ≠ "")
    (hdec : decodeId "Category" v = some pk) (hpk : pk ∈ db.categories) :
    filter_attributes_by_product_types db qs "in_category" (some v) actor channelSlug
      = .ok (attributesForProductTypes qs
          (((inCategoryProducts db pk).filter
              (visibleForActor actor channelSlug true)).map (·.productTypeId))) := by
  simp [filter_attributes_by_product_types, isEmptyValue, hv, hdec, hpk]

theorem filter_category_decode_none (db : DB) (qs : List Attribute)
    (actor : Actor) (channelSlug v : String) (hv : v ≠ "")
    (hdec : decodeId "Category" v = none) :
    filter_attributes_by_product_types db qs "in_category" (some v) actor channelSlug
      = .ok [] := by
  simp [filter_attributes_by_product_types, isEmptyValue, hv, hdec]

theorem filter_category_missing (db : DB) (qs : List Attribute)
    (actor : Actor) (channelSlug v : String) (pk : Int) (hv : v ≠ "")
    (hdec : decodeId "Category" v = some pk) (hpk : pk ∉ db.categories) :
    filter_attributes_by_product_types db qs "in_category" (some v) actor channelSlug
      = .ok [] := by
  simp [filter_attributes_by_product_types, isEmptyValue, hv, hdec, hpk]

theorem filter_collection_result (db : DB) (qs : List Attribute) (actor : Actor)
    (channelSlug v : String) (pk : Int) (hv : v ≠ "")
    (hdec : decodeId "Collection" v = some pk) :
    filter_attributes_by_product_types db qs "in_collection" (some v) actor channelSlug
      = .ok (attributesForProductTypes qs
          (((inCollectionProducts db pk).filter
              (visibleForActor actor channelSlug false)).map (·.productTypeId))) := by
  simp [filter_attributes_by_product_types, isEmptyValue, hv, hdec]

theorem filter_collection_decode_none (db : DB) (qs : List Attribute)
    (actor : Actor) (channelSlug v : String) (hv : v ≠ "")
    (hdec : decodeId "Collection" v = none) :
    filter_attributes_by_product_types db qs "in_collection" (some v) actor channelSlug
      = .ok [] := by
  simp [filter_attributes_by_product_types, isEmptyValue, hv, hdec]

/-- C2: filtering with an empty or null value returns the input queryset
itself, for every field name, actor and channel. -/
theorem filter_empty_value_identity (db : DB) (qs : List Attribute)
    (fieldName : String) (actor : Actor) (channelSlug : String) :
    filter_attributes_by_product_types db qs fieldName none actor channelSlug
        = .ok qs
    ∧ filter_attributes_by_product_types db qs fieldName (some "") actor channelSlug
        = .ok qs := by
  constructor <;> simp [filter_attributes_by_product_types, isEmptyValue]

/-- C3: filtering a non-empty value by a field name other than
`in_category` or `in_collection` yields the error
"Filtering by <field> is unsupported"; the result does not depend on the
queryset, actor or channel. -/
theorem filter_unsupported_field_error (db : DB) (qs : List Attribute)
    (fieldName v : String) (actor : Actor) (channelSlug : String)
    (hv : v ≠ "") (h1 : fieldName ≠ "in_category")
    (h2 : fieldName ≠ "in_collection") :
    filter_attributes_by_product_types db qs fieldName (some v) actor channelSlug
      = .error ("Filtering by " ++ fieldName ++ " is unsupported") := by
  simp [filter_attributes_by_product_types, isEmptyValue, hv, h1, h2]

/-- Witness for C3 at the test's input: field `in_space`, value `a-value`,
a customer actor and channel `default-channel`. -/
theorem filter_unsupported_field_error_witness :
    filter_attributes_by_product_types ⟨[], [], []⟩ [] "in_space"
        (some "a-value") .customer "default-channel"
      = .error ("Filtering by " ++ "in_space" ++ " is unsupported") :=
  filter_unsupported_field_error ⟨[], [], []⟩ [] "in_space" "a-value"
    .customer "default-channel" (by decide) (by decide) (by decide)

/-- C4: for both container filters, a malformed identifier or one whose
decoded container does not exist yields an empty result and no error. -/
theorem filter_nonexistent_container_empty (db : DB) (qs : List Attribute)
    (v : String) (actor : Actor) (channelSlug : String) (hv : v ≠ "")
    (hcat : categoryMissing db v = true) (hcol : collectionUnused db v = true) :
    filter_attributes_by_product_types db qs "in_category" (some v) actor channelSlug
        = .ok []
    ∧ filter_attributes_by_product_types db qs "in_collection" (some v) actor channelSlug
        = .ok [] := by
  constructor
  · cases h : decodeId "Category" v with
    | none => simp [filter_attributes_by_product_types, isEmptyValue, hv, h]
    | some pk =>
      have hpk : pk ∉ db.categories := by
        have hc := hcat
        unfold categoryMissing at hc
        rw [h] at hc
        exact of_decide_eq_true hc
      simp [filter_attributes_by_product_types, isEmptyValue, hv, h, hpk]
  · cases h : decodeId "Collection" v with
    | none => simp [filter_attributes_by_product_types, isEmptyValue, hv, h]
    | some pk =>
      have hpk : ∀ p ∈ db.products, pk ∉ p.collectionIds := by
        have hc := hcol
        unfold collectionUnused at hc
        rw [h] at hc
        exact of_decide_eq_true hc
      have hempty : inCollectionProducts db pk = [] := by
        unfold inCollectionProducts
        rw [List.filter_eq_nil_iff]
        intro p hp
        simp [hpk p hp]
      simp [filter_attributes_by_product_types, isEmptyValue, hv, h, hempty,
        attributesForProductTypes_nil]

/-- Witness for C4: the test's non-existing category ID `Category:-1`
against an empty database, and the same value read as a collection. -/
theorem filter_nonexistent_container_empty_witness :
    filter_attributes_by_product_types ⟨[], [], []⟩ [] "in_category"
        (some "Category:-1") .customer "default-channel" = .ok []
    ∧ filter_attributes_by_product_types ⟨[], [], []⟩ [] "in_collection"
        (some "Category:-1") .customer "default-channel" = .ok [] :=
  filter_nonexistent_container_empty ⟨[], [], []⟩ [] "Category:-1"
    .customer "default-channel" (by decide) (by decide) (by decide)

/-- C7: the migration consists of exactly one operation, an `AlterField` of
`sitesettings.default_weight_unit` to a char field whose choice values are
exactly the eight weight units (without repetition), with default `kg` and
maximum length 30. -/
theorem migration_0029_alters_single_weight_unit_field :
    migration_0029.operations.length = 1
    ∧ ∃ fs : CharFieldSpec,
        migration_0029.operations
            = [.alterField "sitesettings" "default_weight_unit" fs]
        ∧ fs.choices.map Prod.fst
            = ["g", "tonne", "oz", "lb", "stone", "short_ton", "long_ton", "kg"]
        ∧ (fs.choices.map Prod.fst).Nodup
        ∧ fs.default = "kg"
        ∧ fs.maxLength = 30 := by
  refine ⟨rfl, _, rfl, rfl, by decide, rfl, rfl⟩

/-- C9: the type filter partitions the attributes: the `PAGE_TYPE` and
`PRODUCT_TYPE` results select exactly by the `type` field, are disjoint,
and together cover the whole queryset. -/
theorem filter_attribute_type_partitions (qs : List Attribute) (a : Attribute) :
    (a ∈ filter_attribute_type qs .pageType ↔ a ∈ qs ∧ a.attrType = .pageType)
    ∧ (a ∈ filter_attribute_type qs .productType ↔ a ∈ qs ∧ a.attrType = .productType)
    ∧ ((a ∈ filter_attribute_type qs .pageType
          ∧ a ∈ filter_attribute_type qs .productType) ↔ False)
    ∧ (a ∈ qs ↔ (a ∈ filter_attribute_type qs .pageType
          ∨ a ∈ filter_attribute_type qs .productType)) := by
  cases h : a.attrType <;> simp [filter_attribute_type, List.mem_filter, h]

/-- C10: filtering with `filterableInDashboard = true` (respectively
`availableInGrid = true`) keeps exactly the attributes whose flag is
true. -/
theorem filter_boolean_flags_exact (qs : List Attribute) (a : Attribute) :
    (a ∈ filter_filterable_in_dashboard qs true
        ↔ a ∈ qs ∧ a.filterableInDashboard = true)
    ∧ (a ∈ filter_available_in_grid qs true
        ↔ a ∈ qs ∧ a.availableInGrid = true) := by
  simp [filter_filterable_in_dashboard, filter_available_in_grid, List.mem_filter]

/-- C8: asymmetry of the `visible_in_listings` flag for a customer: over
the one-product demonstration database, the category filter keeps the
product's exclusive attribute exactly when its listing is published and
visible in listings, while the collection filter keeps it exactly when the
listing is published — the `visible_in_listings` flag plays no role
there. -/
theorem filter_visible_in_listings_asymmetry (pub vis : Bool) :
    filter_attributes_by_product_types (demoDB pub vis) [weightAttr]
        "in_category" (some "Category:1") .customer "default-channel"
      = .ok (if pub && vis then [weightAttr] else [])
    ∧ filter_attributes_by_product_types (demoDB pub vis) [weightAttr]
        "in_collection" (some "Collection:1") .customer "default-channel"
      = .ok (if pub then [weightAttr] else []) := by
  cases pub <;> cases vis <;> exact ⟨by decide, by decide⟩

/-- C1 counterexample: actors lacking the bypass permission still receive
the attribute whose only supporting product is hidden. A customer
filtering by `in_collection` receives it although the product is not
visible in listings for the channel; staff without `manage_products`
receive it under both filters even when the product is also unpublished
(as the tests at lines 184-224 and 405-445 assert). -/
theorem filter_in_collection_listing_leak :
    Actor.customer.hasBypass = false
    ∧ (∀ p ∈ (demoDB true false).products, ∀ l ∈ p.channelListings,
        l.visibleInListings = false)
    ∧ (∀ p ∈ (demoDB true false).products,
        p.productTypeId ∈ weightAttr.productTypeIds)
    ∧ filter_attributes_by_product_types (demoDB true false) [weightAttr]
        "in_collection" (some "Collection:1") .customer "default-channel"
      = .ok [weightAttr]
    ∧ (Actor.staff false).hasBypass = false
    ∧ filter_attributes_by_product_types (demoDB true false) [weightAttr]
        "in_category" (some "Category:1") (.staff false) "default-channel"
      = .ok [weightAttr]
    ∧ (∀ p ∈ (demoDB false false).products, ∀ l ∈ p.channelListings,
        l.isPublished = false)
    ∧ filter_attributes_by_product_types (demoDB false false) [weightAttr]
        "in_category" (some "Category:1") (.staff false) "default-channel"
      = .ok [weightAttr]
    ∧ filter_attributes_by_product_types (demoDB false false) [weightAttr]
        "in_collection" (some "Collection:1") (.staff false) "default-channel"
      = .ok [weightAttr] := by
  decide

/-- C5 counterexample: the program disagrees with the spec's reference
definition twice over. For a customer and `in_collection`, the
demonstration product that is published but not visible in listings is
kept by the program and dropped by the reference; for staff without
`manage_products` and `in_category`, the unpublished product is kept by
the program (test lines 405-445) while the reference, whose exclusion
gate is the permission, drops it. -/
theorem filter_reference_mismatch :
    decodeId "Collection" "Collection:1" = some 1
    ∧ filter_attributes_by_product_types (demoDB true false) [weightAttr]
        "in_collection" (some "Collection:1") .customer "default-channel"
      ≠ .ok (referenceFilterResult (demoDB true false) [weightAttr]
          "in_collection" .customer "default-channel" 1)
    ∧ decodeId "Category" "Category:1" = some 1
    ∧ (Actor.staff false).hasBypass = false
    ∧ filter_attributes_by_product_types (demoDB false false) [weightAttr]
        "in_category" (some "Category:1") (.staff false) "default-channel"
      ≠ .ok (referenceFilterResult (demoDB false false) [weightAttr]
          "in_category" (.staff false) "default-channel" 1) := by
  decide

theorem visible_filter_eq_chain (c : List Product) (actor : Actor)
    (ch : String) (req : Bool) :
    (if actor.isStaffOrApp then
        c.filter (fun p => p.channelListings.any (fun l => decide (l.channel = ch)))
      else
        (c.filter (fun p =>
            p.channelListings.any (fun l => decide (l.channel = ch)))).filter
          (fun p => p.channelListings.any (fun l =>
            decide (l.channel = ch) && l.isPublished &&
              (!req || l.visibleInListings))))
      = c.filter (visibleForActor actor ch req) := by
  cases hb : actor.isStaffOrApp
  · rw [if_neg (by simp [hb])]
    rw [List.filter_filter]
    apply List.filter_congr
    intro p hp
    rw [visibleForActor_not_staff_or_app actor ch req p hb]
    cases hfull : p.channelListings.any (fun l =>
        decide (l.channel = ch) && l.isPublished && (!req || l.visibleInListings))
    · simp
    · have hchan : p.channelListings.any (fun l => decide (l.channel = ch)) = true := by
        rw [List.any_eq_true] at hfull ⊢
        obtain ⟨l, hl, hc⟩ := hfull
        simp only [Bool.and_eq_true] at hc
        exact ⟨l, hl, hc.1.1⟩
      simp [hchan]
  · rw [if_pos rfl]
    apply List.filter_congr
    intro p hp
    rw [visibleForActor_staff_or_app actor ch req p hb]

theorem attributes_map_eq_exists (qs : List Attribute) (visible : List Product) :
    attributesForProductTypes qs (visible.map (·.productTypeId))
      = qs.filter (fun a =>
          decide (∃ t ∈ a.productTypeIds, ∃ p ∈ visible, p.productTypeId = t)) := by
  unfold attributesForProductTypes
  apply List.filter_congr
  intro a ha
  apply decide_eq_decide.mpr
  constructor
  · rintro ⟨t, ht, htm⟩
    rw [List.mem_map] at htm
    obtain ⟨p, hp, hpt⟩ := htm
    exact ⟨t, ht, p, hp, hpt⟩
  · rintro ⟨t, ht, p, hp, hpt⟩
    exact ⟨t, ht, List.mem_map.mpr ⟨p, hp, hpt⟩⟩

theorem referenceFilterAmended_category (db : DB) (qs : List Attribute)
    (actor : Actor) (ch : String) (pk : Int) :
    referenceFilterAmended db qs "in_category" actor ch pk
      = qs.filter (fun a => decide (∃ t ∈ a.productTypeIds,
          ∃ p ∈ (if actor.isStaffOrApp then
              (inCategoryProducts db pk).filter
                (fun p => p.channelListings.any (fun l => decide (l.channel = ch)))
            else
              ((inCategoryProducts db pk).filter
                  (fun p => p.channelListings.any (fun l => decide (l.channel = ch)))).filter
                (fun p => p.channelListings.any (fun l =>
                  decide (l.channel = ch) && l.isPublished &&
                    (!true || l.visibleInListings)))),
            p.productTypeId = t)) := rfl

theorem referenceFilterAmended_collection (db : DB) (qs : List Attribute)
    (actor : Actor) (ch : String) (pk : Int) :
    referenceFilterAmended db qs "in_collection" actor ch pk
      = qs.filter (fun a => decide (∃ t ∈ a.productTypeIds,
          ∃ p ∈ (if actor.isStaffOrApp then
              (inCollectionProducts db pk).filter
                (fun p => p.channelListings.any (fun l => decide (l.channel = ch)))
            else
              ((inCollectionProducts db pk).filter
                  (fun p => p.channelListings.any (fun l => decide (l.channel = ch)))).filter
                (fun p => p.channelListings.any (fun l =>
                  decide (l.channel = ch) && l.isPublished &&
                    (!false || l.visibleInListings)))),
            p.productTypeId = t)) := rfl

/-- C5 as amended: for an existing container, the filter result equals the
spec's reference definition amended so that the `visible_in_listings`
exclusion applies only to the category branch and the exclusions are
skipped for every staff or app actor, not only for holders of the
`manage_products` permission. -/
theorem filter_matches_amended_reference (db : DB) (qs : List Attribute)
    (actor : Actor) (channelSlug v : String) (pk : Int) (hv : v ≠ "") :
    (decodeId "Category" v = some pk → pk ∈ db.categories →
      filter_attributes_by_product_types db qs "in_category" (some v) actor channelSlug
        = .ok (referenceFilterAmended db qs "in_category" actor channelSlug pk))
    ∧ (decodeId "Collection" v = some pk →
      filter_attributes_by_product_types db qs "in_collection" (some v) actor channelSlug
        = .ok (referenceFilterAmended db qs "in_collection" actor channelSlug pk)) := by
  constructor
  · intro hdec hpk
    rw [filter_category_result db qs actor channelSlug v pk hv hdec hpk,
      attributes_map_eq_exists, referenceFilterAmended_category,
      visible_filter_eq_chain (inCategoryProducts db pk) actor channelSlug true]
  · intro hdec
    rw [filter_collection_result db qs actor channelSlug v pk hv hdec,
      attributes_map_eq_exists, referenceFilterAmended_collection,
      visible_filter_eq_chain (inCollectionProducts db pk) actor channelSlug false]

/-- Witness for C5 as amended, at the demonstration database whose product
is published but not visible in listings: the filter agrees with the
amended reference on both container filters. -/
theorem filter_matches_amended_reference_witness :
    filter_attributes_by_product_types (demoDB true false) [weightAttr]
        "in_category" (some "Category:1") .customer "default-channel"
      = .ok (referenceFilterAmended (demoDB true false) [weightAttr]
          "in_category" .customer "default-channel" 1)
    ∧ filter_attributes_by_product_types (demoDB true false) [weightAttr]
        "in_collection" (some "Collection:1") .customer "default-channel"
      = .ok (referenceFilterAmended (demoDB true false) [weightAttr]
          "in_collection" .customer "default-channel" 1) :=
  ⟨(filter_matches_amended_reference (demoDB true false) [weightAttr] .customer
      "default-channel" "Category:1" 1 (by decide)).1 (by decide) (by decide),
   (filter_matches_amended_reference (demoDB true false) [weightAttr] .customer
      "default-channel" "Collection:1" 1 (by decide)).2 (by decide)⟩

/-- C1 as amended: for an actor who is neither staff nor app (anonymous
or customer — staff and app actors are exempt from the exclusions even
without the permission), every attribute in the result of `in_category`
has a supporting product in the category with a published,
visible-in-listings listing for the channel, and every attribute in the
result of `in_collection` has a supporting product in the collection with
a published listing for the channel — the `visible_in_listings` exclusion
is enforced by the category branch only. -/
theorem filter_no_leak_amended (db : DB) (qs : List Attribute) (actor : Actor)
    (channelSlug v : String) (a : Attribute)
    (hb : actor.isStaffOrApp = false) (hv : v ≠ "") :
    (∀ res, filter_attributes_by_product_types db qs "in_category" (some v)
          actor channelSlug = .ok res → a ∈ res →
      ∃ pk, decodeId "Category" v = some pk ∧
        ∃ p ∈ db.products, p.categoryId = some pk ∧
          (∃ l ∈ p.channelListings, l.channel = channelSlug
            ∧ l.isPublished = true ∧ l.visibleInListings = true) ∧
          p.productTypeId ∈ a.productTypeIds)
    ∧ (∀ res, filter_attributes_by_product_types db qs "in_collection" (some v)
          actor channelSlug = .ok res → a ∈ res →
      ∃ pk, decodeId "Collection" v = some pk ∧
        ∃ p ∈ db.products, pk ∈ p.collectionIds ∧
          (∃ l ∈ p.channelListings, l.channel = channelSlug
            ∧ l.isPublished = true) ∧
          p.productTypeId ∈ a.productTypeIds) := by
  constructor
  · intro res hres hmem
    cases hdec : decodeId "Category" v with
    | none =>
      rw [filter_category_decode_none db qs actor channelSlug v hv hdec] at hres
      cases hres
      simp at hmem
    | some pk =>
      by_cases hpk : pk ∈ db.categories
      · rw [filter_category_result db qs actor channelSlug v pk hv hdec hpk] at hres
        cases hres
        rw [mem_attributesForProductTypes] at hmem
        obtain ⟨hq, t, ht, htmem⟩ := hmem
        rw [List.mem_map] at htmem
        obtain ⟨p, hpfilter, hfp⟩ := htmem
        subst hfp
        rw [List.mem_filter] at hpfilter
        obtain ⟨hpcat, hvis⟩ := hpfilter
        simp only [inCategoryProducts, List.mem_filter, decide_eq_true_eq] at hpcat
        obtain ⟨hpdb, hcatid⟩ := hpcat
        rw [visibleForActor_not_staff_or_app actor channelSlug true p hb] at hvis
        rw [List.any_eq_true] at hvis
        obtain ⟨l, hl, hcond⟩ := hvis
        simp only [Bool.not_true, Bool.false_or, Bool.and_eq_true,
          decide_eq_true_eq] at hcond
        exact ⟨pk, rfl, p, hpdb, hcatid,
          ⟨l, hl, hcond.1.1, hcond.1.2, hcond.2⟩, ht⟩
      · rw [filter_category_missing db qs actor channelSlug v pk hv hdec hpk] at hres
        cases hres
        simp at hmem
  · intro res hres hmem
    cases hdec : decodeId "Collection" v with
    | none =>
      rw [filter_collection_decode_none db qs actor channelSlug v hv hdec] at hres
      cases hres
      simp at hmem
    | some pk =>
      rw [filter_collection_result db qs actor channelSlug v pk hv hdec] at hres
      cases hres
      rw [mem_attributesForProductTypes] at hmem
      obtain ⟨hq, t, ht, htmem⟩ := hmem
      rw [List.mem_map] at htmem
      obtain ⟨p, hpfilter, hfp⟩ := htmem
      subst hfp
      rw [List.mem_filter] at hpfilter
      obtain ⟨hpcol, hvis⟩ := hpfilter
      simp only [inCollectionProducts, List.mem_filter, decide_eq_true_eq] at hpcol
      obtain ⟨hpdb, hcolid⟩ := hpcol
      rw [visibleForActor_not_staff_or_app actor channelSlug false p hb] at hvis
      rw [List.any_eq_true] at hvis
      obtain ⟨l, hl, hcond⟩ := hvis
      simp only [Bool.not_false, Bool.or_true, Bool.and_true, Bool.and_eq_true,
        decide_eq_true_eq] at hcond
      exact ⟨pk, rfl, p, hpdb, hcolid, ⟨l, hl, hcond.1⟩, ht⟩

/-- Witness for C1 as amended: a customer filtering by category over the
demonstration database with a published, visible listing; the attribute in
the result is supported by a fully visible product. -/
theorem filter_no_leak_amended_witness :
    Actor.customer.isStaffOrApp = false
    ∧ ∃ pk, decodeId "Category" "Category:1" = some pk ∧
        ∃ p ∈ (demoDB true true).products, p.categoryId = some pk ∧
          (∃ l ∈ p.channelListings, l.channel = "default-channel"
            ∧ l.isPublished = true ∧ l.visibleInListings = true) ∧
          p.productTypeId ∈ weightAttr.productTypeIds :=
  ⟨rfl,
    (filter_no_leak_amended (demoDB true true) [weightAttr] .customer
        "default-channel" "Category:1" weightAttr rfl (by decide)).1
      [weightAttr] (by decide) (by decide)⟩

/-- C6: an actor with the bypass permission filtering by `in_category` or
`in_collection` receives every attribute of the queryset assigned to the
product type of some product of the container having a listing for the
channel — no visibility exclusion applies. -/
theorem filter_bypass_includes (db : DB) (qs : List Attribute) (actor : Actor)
    (channelSlug vcat vcol : String) (pkc pkl : Int) (a : Attribute)
    (hb : actor.hasBypass = true)
    (hvcat : vcat ≠ "") (hdcat : decodeId "Category" vcat = some pkc)
    (hpkc : pkc ∈ db.categories)
    (hvcol : vcol ≠ "") (hdcol : decodeId "Collection" vcol = some pkl)
    (ha : a ∈ qs) :
    ((∃ p ∈ db.products, p.categoryId = some pkc
        ∧ (∃ l ∈ p.channelListings, l.channel = channelSlug)
        ∧ p.productTypeId ∈ a.productTypeIds) →
      ∃ res, filter_attributes_by_product_types db qs "in_category" (some vcat)
          actor channelSlug = .ok res ∧ a ∈ res)
    ∧ ((∃ p ∈ db.products, pkl ∈ p.collectionIds
        ∧ (∃ l ∈ p.channelListings, l.channel = channelSlug)
        ∧ p.productTypeId ∈ a.productTypeIds) →
      ∃ res, filter_attributes_by_product_types db qs "in_collection" (some vcol)
          actor channelSlug = .ok res ∧ a ∈ res) := by
  constructor
  · rintro ⟨p, hp, hcat, ⟨l, hl, hch⟩, hpt⟩
    refine ⟨_, filter_category_result db qs actor channelSlug vcat pkc hvcat hdcat hpkc, ?_⟩
    rw [mem_attributesForProductTypes]
    refine ⟨ha, p.productTypeId, hpt, ?_⟩
    rw [List.mem_map]
    refine ⟨p, ?_, rfl⟩
    rw [List.mem_filter]
    refine ⟨?_, ?_⟩
    · simp only [inCategoryProducts, List.mem_filter, decide_eq_true_eq]
      exact ⟨hp, hcat⟩
    · rw [visibleForActor_staff_or_app actor channelSlug true p
        (Actor.isStaffOrApp_of_hasBypass actor hb)]
      rw [List.any_eq_true]
      exact ⟨l, hl, by simp [hch]⟩
  · rintro ⟨p, hp, hcol, ⟨l, hl, hch⟩, hpt⟩
    refine ⟨_, filter_collection_result db qs actor channelSlug vcol pkl hvcol hdcol, ?_⟩
    rw [mem_attributesForProductTypes]
    refine ⟨ha, p.productTypeId, hpt, ?_⟩
    rw [List.mem_map]
    refine ⟨p, ?_, rfl⟩
    rw [List.mem_filter]
    refine ⟨?_, ?_⟩
    · simp only [inCollectionProducts, List.mem_filter, decide_eq_true_eq]
      exact ⟨hp, hcol⟩
    · rw [visibleForActor_staff_or_app actor channelSlug false p
        (Actor.isStaffOrApp_of_hasBypass actor hb)]
      rw [List.any_eq_true]
      exact ⟨l, hl, by simp [hch]⟩

/-- Witness for C6: staff with the permission, over the demonstration
database whose sole product is unpublished and invisible in listings, still
receive its exclusive attribute under both container filters. -/
theorem filter_bypass_includes_witness :
    (∃ res, filter_attributes_by_product_types (demoDB false false) [weightAttr]
        "in_category" (some "Category:1") (.staff true) "default-channel"
          = .ok res ∧ weightAttr ∈ res)
    ∧ (∃ res, filter_attributes_by_product_types (demoDB false false) [weightAttr]
        "in_collection" (some "Collection:1") (.staff true) "default-channel"
          = .ok res ∧ weightAttr ∈ res) :=
  ⟨(filter_bypass_includes (demoDB false false) [weightAttr] (.staff true)
      "default-channel" "Category:1" "Collection:1" 1 1 weightAttr rfl
      (by decide) (by decide) (by decide) (by decide) (by decide) (by decide)).1
    (by decide),
   (filter_bypass_includes (demoDB false false) [weightAttr] (.staff true)
      "default-channel" "Category:1" "Collection:1" 1 1 weightAttr rfl
      (by decide) (by decide) (by decide) (by decide) (by decide) (by decide)).2
    (by decide)⟩

end Saleor
